import Mathlib

/-!
Verification of the brandprompt-generator backend core: the request data
model (`src/api/models.py`) and the deterministic prompt composer
(`src/api/prompt_builder.py`), together with a shallow embedding of the
request validator induced by the declared pydantic field constraints.
-/

set_option maxRecDepth 4000
set_option linter.unusedVariables false

namespace BrandPrompt

/-- Characters removed by Python `str.strip()` (ASCII whitespace). -/
def pyIsSpace (c : Char) : Bool :=
  c == ' ' || c == '\t' || c == '\n' || c == '\r' || c == '\x0b' || c == '\x0c'

/-- Python `s.strip()`: remove leading and trailing whitespace characters. -/
def pyStrip (s : String) : String :=
  ⟨((s.data.dropWhile pyIsSpace).reverse.dropWhile pyIsSpace).reverse⟩

/-- Python `sep.join(lines)`. -/
def joinStr (sep : String) : List String → String
  | [] => ""
  | [x] => x
  | x :: xs => x ++ sep ++ joinStr sep xs

/-- Python dict indexing `d[k]` over a literal dict: fails when the key is absent. -/
def dictIndex (d : List (String × String)) (k : String) : Option String :=
  match d.find? (fun kv => kv.1 == k) with
  | some kv => some kv.2
  | none => none

/-- Python `d.get(k, dflt)`: total lookup with a default. -/
def dictGet (d : List (String × String)) (k : String) (dflt : String) : String :=
  match dictIndex d k with
  | some v => v
  | none => dflt

/-- `Orientation` enum from models.py. -/
inductive Orientation
  | post
  | ad
  | email
  | landing_page
  | other
  deriving DecidableEq

/-- The `.value` of an `Orientation` member. -/
def Orientation.value : Orientation → String
  | .post => "post"
  | .ad => "ad"
  | .email => "email"
  | .landing_page => "landing_page"
  | .other => "other"

/-- `Platform` enum from models.py. -/
inductive Platform
  | instagram
  | tiktok
  | facebook
  | linkedin
  | x
  | youtube
  | blog
  | website
  | other
  deriving DecidableEq

/-- The `.value` of a `Platform` member. -/
def Platform.value : Platform → String
  | .instagram => "instagram"
  | .tiktok => "tiktok"
  | .facebook => "facebook"
  | .linkedin => "linkedin"
  | .x => "x"
  | .youtube => "youtube"
  | .blog => "blog"
  | .website => "website"
  | .other => "other"

/-- `Tone` enum from models.py. -/
inductive Tone
  | professional
  | friendly
  | playful
  | bold
  | luxurious
  | minimalist
  | other
  deriving DecidableEq

/-- The `.value` of a `Tone` member. -/
def Tone.value : Tone → String
  | .professional => "professional"
  | .friendly => "friendly"
  | .playful => "playful"
  | .bold => "bold"
  | .luxurious => "luxurious"
  | .minimalist => "minimalist"
  | .other => "other"

/-- `LengthPreference` enum from models.py. -/
inductive LengthPreference
  | short
  | medium
  | long
  deriving DecidableEq

/-- The `.value` of a `LengthPreference` member. -/
def LengthPreference.value : LengthPreference → String
  | .short => "short"
  | .medium => "medium"
  | .long => "long"

/-- `BrandVoice` model from models.py. -/
structure BrandVoice where
  tone : Tone
  keywords : List String
  avoid : List String
  deriving DecidableEq

/-- `BrandSettings` model from models.py. -/
structure BrandSettings where
  brand_name : String
  tagline : Option String
  description : Option String
  target_audience : Option String
  voice : BrandVoice
  deriving DecidableEq

/-- `StyleSettings` model from models.py. -/
structure StyleSettings where
  length : LengthPreference
  include_hashtags : Bool
  emoji_level : Int
  formatting_notes : Option String
  deriving DecidableEq

/-- `PromptGenerateRequest` model from models.py. -/
structure PromptGenerateRequest where
  orientation : Orientation
  platform : Platform
  brief : String
  brand : BrandSettings
  style : StyleSettings
  additional_context : Option String
  deriving DecidableEq

/-- The bounds declared on the pydantic models: a value object of
`PromptGenerateRequest` is validated iff every field satisfies them. -/
def ValidRequest (r : PromptGenerateRequest) : Prop :=
  1 ≤ r.brief.length ∧ r.brief.length ≤ 2000 ∧
  1 ≤ r.brand.brand_name.length ∧ r.brand.brand_name.length ≤ 120 ∧
  (∀ t ∈ r.brand.tagline, t.length ≤ 200) ∧
  (∀ t ∈ r.brand.description, t.length ≤ 800) ∧
  (∀ t ∈ r.brand.target_audience, t.length ≤ 400) ∧
  r.brand.voice.keywords.length ≤ 30 ∧
  r.brand.voice.avoid.length ≤ 30 ∧
  0 ≤ r.style.emoji_level ∧ r.style.emoji_level ≤ 5 ∧
  (∀ t ∈ r.style.formatting_notes, t.length ≤ 400) ∧
  (∀ t ∈ r.additional_context, t.length ≤ 2000)

instance (r : PromptGenerateRequest) : Decidable (ValidRequest r) := by
  unfold ValidRequest
  infer_instance

/-- A scalar metadata value (string, boolean or integer dict entry). -/
inductive MetaValue
  | str (s : String)
  | bool (b : Bool)
  | int (n : Int)
  deriving DecidableEq

/-- The truthy-filtering join of prompt_builder.py:
`"\n".join([ln for ln in lines if ln and ln.strip()])`, with the kept-line
predicate factored out. -/
def _keepLine (ln : String) : Bool :=
  (!(ln == "")) && (!(pyStrip ln == ""))

/-- `_join_nonempty` from prompt_builder.py. -/
def _join_nonempty (lines : List String) : String :=
  joinStr "\n" (lines.filter _keepLine)

/-- The `notes` dict literal inside `_platform_notes`. -/
def platformNotesTable : List (String × String) :=
  [("instagram", "Optimize for Instagram: strong hook, short paragraphs, optional hashtags."),
   ("tiktok", "Optimize for TikTok: punchy, conversational, high-energy; include on-screen text suggestions if useful."),
   ("facebook", "Optimize for Facebook: clear value proposition, friendly tone, encourage comments/shares when relevant."),
   ("linkedin", "Optimize for LinkedIn: professional, credible, insight-driven; avoid slang."),
   ("x", "Optimize for X: concise, bold, high signal; consider a short thread if needed."),
   ("youtube", "Optimize for YouTube: include a title + hook; structure for spoken delivery if applicable."),
   ("blog", "Optimize for blog: outline-first, SEO-aware headings, clear structure."),
   ("website", "Optimize for web/landing: benefits-first, scannable sections, clear CTA."),
   ("other", "Optimize for the specified platform context.")]

/-- `_platform_notes`: `notes.get(platform, notes["other"])`, where the
eager evaluation of `notes["other"]` is the only fallible step. -/
def _platform_notes (platform : String) : Option String :=
  match dictIndex platformNotesTable "other" with
  | some dflt => some (dictGet platformNotesTable platform dflt)
  | none => none

/-- The `notes` dict literal inside `_orientation_notes`. -/
def orientationNotesTable : List (String × String) :=
  [("post", "Create a social post draft."),
   ("ad", "Create ad-focused copy (attention, offer, CTA) and include 2-3 variants."),
   ("email", "Create an email draft with subject lines and a clear CTA."),
   ("landing_page", "Create landing-page copy with hero, benefits, social proof ideas, and CTA."),
   ("other", "Create content appropriate to the intent described.")]

/-- `_orientation_notes`: `notes.get(orientation, notes["other"])`. -/
def _orientation_notes (orientation : String) : Option String :=
  match dictIndex orientationNotesTable "other" with
  | some dflt => some (dictGet orientationNotesTable orientation dflt)
  | none => none

/-- The `length_map` dict literal inside `build_prompt`. -/
def lengthMapTable : List (String × String) :=
  [("short", "Keep it concise."),
   ("medium", "Keep it moderately detailed."),
   ("long", "Make it thorough and detailed.")]

/-- Python `x or "N/A"` for an optional string: both `None` and the empty
string are falsy and yield the placeholder. -/
def orNA : Option String → String
  | none => "N/A"
  | some s => if s == "" then "N/A" else s

/-- The list literal passed to `_join_nonempty` inside `build_prompt`, with
the already-computed orientation and platform notes substituted. -/
def promptEntries (req : PromptGenerateRequest) (orientationNote platformNote : String) :
    List String :=
  let brand := req.brand
  let style := req.style
  let voice_keywords :=
    if brand.voice.keywords.isEmpty then "N/A" else joinStr ", " brand.voice.keywords
  let avoid_keywords :=
    if brand.voice.avoid.isEmpty then "N/A" else joinStr ", " brand.voice.avoid
  let emoji_instruction :=
    if style.emoji_level == 0 then "Do not use emojis."
    else "Use emojis sparingly at level " ++ toString style.emoji_level ++ "/5."
  let hashtag_instruction :=
    if style.include_hashtags then "Include relevant hashtags at the end."
    else "Do not include hashtags."
  ["You are a world-class brand copywriter and prompt engineer.",
   "",
   "## Task",
   orientationNote,
   platformNote,
   "",
   "## Brand",
   "Brand name: " ++ brand.brand_name,
   "Tagline: " ++ orNA brand.tagline,
   "Description/positioning: " ++ orNA brand.description,
   "Target audience: " ++ orNA brand.target_audience,
   "",
   "## Voice & Constraints",
   "Tone: " ++ brand.voice.tone.value,
   "Include/Emphasize keywords: " ++ voice_keywords,
   "Avoid: " ++ avoid_keywords,
   "",
   "## Style",
   "Length: " ++ style.length.value ++ " (" ++ dictGet lengthMapTable style.length.value "" ++ ")",
   emoji_instruction,
   hashtag_instruction,
   "Formatting notes: " ++ orNA style.formatting_notes,
   "",
   "## User Brief",
   pyStrip req.brief,
   "",
   "## Additional Context",
   pyStrip (orNA req.additional_context),
   "",
   "## Output Requirements",
   "- Output only the final content (no analysis).",
   "- Ensure the content is on-brand and platform-appropriate.",
   "- Provide 1 primary version, plus variants if the orientation suggests it (e.g., ads)."]

/-- The `metadata` dict literal returned by `build_prompt`. -/
def buildMetadata (req : PromptGenerateRequest) : List (String × MetaValue) :=
  [("orientation", MetaValue.str req.orientation.value),
   ("platform", MetaValue.str req.platform.value),
   ("brand_name", MetaValue.str req.brand.brand_name),
   ("tone", MetaValue.str req.brand.voice.tone.value),
   ("length", MetaValue.str req.style.length.value),
   ("include_hashtags", MetaValue.bool req.style.include_hashtags),
   ("emoji_level", MetaValue.int req.style.emoji_level)]

/-- `build_prompt` from prompt_builder.py: the composer. The two note
lookups each contain the fallible dict index `notes["other"]`, so the
embedding returns an `Option`; totality is proved, not assumed. -/
def build_prompt (req : PromptGenerateRequest) :
    Option (String × List (String × MetaValue)) :=
  match _orientation_notes req.orientation.value, _platform_notes req.platform.value with
  | some orientationNote, some platformNote =>
      some (_join_nonempty (promptEntries req orientationNote platformNote),
            buildMetadata req)
  | _, _ => none

/-- Fallback note used when an orientation key is absent (`notes["other"]`). -/
def defaultONote : String := "Create content appropriate to the intent described."

/-- Fallback note used when a platform key is absent (`notes["other"]`). -/
def defaultPNote : String := "Optimize for the specified platform context."

/-- The lines that survive `_join_nonempty`'s filter and are joined into the
prompt for a given request. -/
def promptLinesOf (req : PromptGenerateRequest) : List String :=
  (promptEntries req
    (dictGet orientationNotesTable req.orientation.value defaultONote)
    (dictGet platformNotesTable req.platform.value defaultPNote)).filter _keepLine

/-- Concrete voice matching the repository's own test fixture. -/
def voiceA : BrandVoice := ⟨Tone.professional, ["seasonal", "craft"], ["cheap"]⟩

/-- Concrete brand matching the repository's own test fixture. -/
def brandA : BrandSettings :=
  ⟨"Acme", some "Fuel your day, one cup at a time.", some "Small-batch coffee roaster.",
   some "Busy professionals", voiceA⟩

/-- Concrete validated request (testing the ad/instagram scenario). -/
def reqA : PromptGenerateRequest :=
  ⟨Orientation.ad, Platform.instagram, "Launch a new seasonal latte.", brandA,
   ⟨LengthPreference.medium, true, 0, some "Use bullet points when listing benefits."⟩,
   some "Promo runs next week."⟩

/-- Same request with a nonzero emoji level. -/
def reqE3 : PromptGenerateRequest :=
  ⟨Orientation.ad, Platform.instagram, "Launch a new seasonal latte.", brandA,
   ⟨LengthPreference.medium, true, 3, some "Use bullet points when listing benefits."⟩,
   some "Promo runs next week."⟩

/-- Same request with hashtags disabled. -/
def reqNoTags : PromptGenerateRequest :=
  ⟨Orientation.ad, Platform.instagram, "Launch a new seasonal latte.", brandA,
   ⟨LengthPreference.medium, false, 0, some "Use bullet points when listing benefits."⟩,
   some "Promo runs next week."⟩

/-- Minimal validated request with all optional fields absent. -/
def reqSmall : PromptGenerateRequest :=
  ⟨Orientation.post, Platform.linkedin, "B",
   ⟨"A", none, none, none, ⟨Tone.professional, [], []⟩⟩,
   ⟨LengthPreference.medium, true, 0, none⟩, none⟩

/-- Minimal validated request whose tagline is present but empty. -/
def reqEmptyTag : PromptGenerateRequest :=
  ⟨Orientation.post, Platform.linkedin, "B",
   ⟨"A", some "", none, none, ⟨Tone.professional, [], []⟩⟩,
   ⟨LengthPreference.medium, true, 0, none⟩, none⟩

theorem build_prompt_some (r : PromptGenerateRequest) :
    build_prompt r = some (joinStr "\n" (promptLinesOf r), buildMetadata r) := rfl

theorem string_data_append (a b : String) : (a ++ b).data = a.data ++ b.data := by
  cases a; cases b; rfl

theorem pyStrip_eq_empty_iff (s : String) :
    pyStrip s = "" ↔ ∀ c ∈ s.data, pyIsSpace c = true := by
  unfold pyStrip
  constructor
  · intro h c hc
    have hdata : (((s.data.dropWhile pyIsSpace).reverse.dropWhile pyIsSpace).reverse) = [] := by
      have := congrArg String.data h
      simpa using this
    rw [List.reverse_eq_nil_iff, List.dropWhile_eq_nil_iff] at hdata
    by_contra hno
    have hmem : c ∈ s.data.dropWhile pyIsSpace := by
      have hsplit := List.takeWhile_append_dropWhile pyIsSpace s.data
      rw [← hsplit] at hc
      rcases List.mem_append.mp hc with h1 | h2
      · exact absurd (List.mem_takeWhile_imp h1) hno
      · exact h2
    exact hno (hdata c (List.mem_reverse.mpr hmem))
  · intro h
    have h1 : s.data.dropWhile pyIsSpace = [] :=
      List.dropWhile_eq_nil_iff.mpr h
    simp [h1]

theorem keepLine_iff (s : String) :
    _keepLine s = true ↔ ∃ c ∈ s.data, pyIsSpace c = false := by
  unfold _keepLine
  constructor
  · intro h
    have h2 : pyStrip s ≠ "" := by
      simp only [Bool.and_eq_true, Bool.not_eq_true', beq_eq_false_iff_ne] at h
      exact h.2
    by_contra hno
    push_neg at hno
    exact h2 (pyStrip_eq_empty_iff s |>.mpr (by
      intro c hc
      have := hno c hc
      simpa using this))
  · rintro ⟨c, hc, hcs⟩
    have hne : s.data ≠ [] := by
      intro h0; rw [h0] at hc; cases hc
    have hne2 : pyStrip s ≠ "" := by
      intro h0
      have := (pyStrip_eq_empty_iff s).mp h0 c hc
      rw [this] at hcs; cases hcs
    have hse : s ≠ "" := by
      intro h0; rw [h0] at hne; exact hne rfl
    simp only [Bool.and_eq_true, Bool.not_eq_true', beq_eq_false_iff_ne]
    exact ⟨hse, hne2⟩

theorem joinStr_mem_piece (sep : String) (l : List String) (x : String) (hx : x ∈ l) :
    x.data <:+: (joinStr sep l).data := by
  induction l with
  | nil => cases hx
  | cons y ys ih =>
    cases ys with
    | nil =>
      rcases List.mem_singleton.mp hx with rfl
      exact List.infix_rfl
    | cons z zs =>
      rcases List.mem_cons.mp hx with rfl | hx2
      · show x.data <:+: (x ++ sep ++ joinStr sep (z :: zs)).data
        rw [string_data_append, string_data_append, List.append_assoc]
        exact (List.prefix_append _ _).isInfix
      · have h1 := ih hx2
        show x.data <:+: (y ++ sep ++ joinStr sep (z :: zs)).data
        rw [string_data_append, string_data_append]
        exact h1.trans (List.suffix_append _ _).isInfix

/-- The prompt string `s` has `sub` as a contiguous substring. -/
def strContains (s sub : String) : Prop :=
  sub.data <:+: s.data

theorem strContains_of_mem_lines (r : PromptGenerateRequest) (p : String)
    (md : List (String × MetaValue)) (h : build_prompt r = some (p, md))
    (x : String) (hx : x ∈ promptLinesOf r) (sub : String)
    (hsub : sub.data <+: x.data) : strContains p sub := by
  have hp : p = joinStr "\n" (promptLinesOf r) := by
    have hb : build_prompt r = some (joinStr "\n" (promptLinesOf r), buildMetadata r) := rfl
    rw [hb] at h
    simp only [Option.some.injEq, Prod.mk.injEq] at h
    exact h.1.symm
  rw [hp]
  exact hsub.isInfix.trans (joinStr_mem_piece "\n" (promptLinesOf r) x hx)

theorem mem_promptLines (r : PromptGenerateRequest) (x : String)
    (hmem : x ∈ promptEntries r
      (dictGet orientationNotesTable r.orientation.value defaultONote)
      (dictGet platformNotesTable r.platform.value defaultPNote))
    (hk : _keepLine x = true) : x ∈ promptLinesOf r :=
  List.mem_filter.mpr ⟨hmem, hk⟩

/-- Claim C2: for every validated request, the metadata mapping returned
by build_prompt is exactly the seven-key mapping orientation, platform,
brand_name, tone, length, include_hashtags, emoji_level, each value equal
to the corresponding normalized request field (round-trip identity). -/
theorem c2_metadata (r : PromptGenerateRequest) (hv : ValidRequest r)
    (p : String) (md : List (String × MetaValue))
    (h : build_prompt r = some (p, md)) :
    md = [("orientation", MetaValue.str r.orientation.value),
          ("platform", MetaValue.str r.platform.value),
          ("brand_name", MetaValue.str r.brand.brand_name),
          ("tone", MetaValue.str r.brand.voice.tone.value),
          ("length", MetaValue.str r.style.length.value),
          ("include_hashtags", MetaValue.bool r.style.include_hashtags),
          ("emoji_level", MetaValue.int r.style.emoji_level)] := by
  rw [build_prompt_some r] at h
  simp only [Option.some.injEq, Prod.mk.injEq] at h
  exact h.2.symm

/-- Claim C3: when emoji_level is 0 the prompt contains the exact line
"Do not use emojis."; when it is positive the prompt contains the line
"Use emojis sparingly at level N/5." with the integer substituted. -/
theorem c3_emoji (r : PromptGenerateRequest) (hv : ValidRequest r)
    (p : String) (md : List (String × MetaValue))
    (h : build_prompt r = some (p, md)) :
    (r.style.emoji_level = 0 →
      "Do not use emojis." ∈ promptLinesOf r ∧ strContains p "Do not use emojis.") ∧
    (0 < r.style.emoji_level →
      ("Use emojis sparingly at level " ++ toString r.style.emoji_level ++ "/5.")
        ∈ promptLinesOf r ∧
      strContains p
        ("Use emojis sparingly at level " ++ toString r.style.emoji_level ++ "/5.")) := by
  constructor
  · intro h0
    have hmem : "Do not use emojis." ∈ promptLinesOf r := by
      apply mem_promptLines
      · simp [promptEntries, h0]
      · decide
    exact ⟨hmem, strContains_of_mem_lines r p md h _ hmem _ List.prefix_rfl⟩
  · intro h0
    have hcond : (r.style.emoji_level == 0) = false := by
      simp only [beq_eq_false_iff_ne]
      omega
    have hmem : ("Use emojis sparingly at level " ++ toString r.style.emoji_level ++ "/5.")
        ∈ promptLinesOf r := by
      apply mem_promptLines
      · simp [promptEntries, hcond]
      · apply (keepLine_iff _).mpr
        refine ⟨'U', ?_, by decide⟩
        rw [string_data_append, string_data_append]
        exact List.mem_append.mpr (Or.inl (List.mem_append.mpr (Or.inl (by decide))))
    exact ⟨hmem, strContains_of_mem_lines r p md h _ hmem _ List.prefix_rfl⟩

/-- Claim C4: when include_hashtags is true the prompt contains
"Include relevant hashtags at the end.", otherwise it contains
"Do not include hashtags.". -/
theorem c4_hashtags (r : PromptGenerateRequest) (hv : ValidRequest r)
    (p : String) (md : List (String × MetaValue))
    (h : build_prompt r = some (p, md)) :
    (r.style.include_hashtags = true →
      "Include relevant hashtags at the end." ∈ promptLinesOf r ∧
      strContains p "Include relevant hashtags at the end.") ∧
    (r.style.include_hashtags = false →
      "Do not include hashtags." ∈ promptLinesOf r ∧
      strContains p "Do not include hashtags.") := by
  constructor
  · intro h0
    have hmem : "Include relevant hashtags at the end." ∈ promptLinesOf r := by
      apply mem_promptLines
      · simp [promptEntries, h0]
      · decide
    exact ⟨hmem, strContains_of_mem_lines r p md h _ hmem _ List.prefix_rfl⟩
  · intro h0
    have hmem : "Do not include hashtags." ∈ promptLinesOf r := by
      apply mem_promptLines
      · simp [promptEntries, h0]
      · decide
    exact ⟨hmem, strContains_of_mem_lines r p md h _ hmem _ List.prefix_rfl⟩


theorem tagline_slot_mem (r : PromptGenerateRequest) :
    ("Tagline: " ++ orNA r.brand.tagline) ∈ promptLinesOf r := by
  apply mem_promptLines
  · simp [promptEntries]
  · apply (keepLine_iff _).mpr
    refine ⟨'T', ?_, by decide⟩
    rw [string_data_append]
    exact List.mem_append.mpr (Or.inl (by decide))

theorem description_slot_mem (r : PromptGenerateRequest) :
    ("Description/positioning: " ++ orNA r.brand.description) ∈ promptLinesOf r := by
  apply mem_promptLines
  · simp [promptEntries]
  · apply (keepLine_iff _).mpr
    refine ⟨'D', ?_, by decide⟩
    rw [string_data_append]
    exact List.mem_append.mpr (Or.inl (by decide))

theorem audience_slot_mem (r : PromptGenerateRequest) :
    ("Target audience: " ++ orNA r.brand.target_audience) ∈ promptLinesOf r := by
  apply mem_promptLines
  · simp [promptEntries]
  · apply (keepLine_iff _).mpr
    refine ⟨'T', ?_, by decide⟩
    rw [string_data_append]
    exact List.mem_append.mpr (Or.inl (by decide))

theorem formatting_slot_mem (r : PromptGenerateRequest) :
    ("Formatting notes: " ++ orNA r.style.formatting_notes) ∈ promptLinesOf r := by
  apply mem_promptLines
  · simp [promptEntries]
  · apply (keepLine_iff _).mpr
    refine ⟨'F', ?_, by decide⟩
    rw [string_data_append]
    exact List.mem_append.mpr (Or.inl (by decide))

/-- Claim C5 (amended): an absent tagline, description, target_audience
or formatting_notes renders the literal N/A in its slot; a present and
nonempty field renders its value in the slot. (The original present-case
fails for the empty string, which also renders N/A; see the
counterexample.) -/
theorem c5_optional_slots (r : PromptGenerateRequest) (hv : ValidRequest r)
    (p : String) (md : List (String × MetaValue))
    (h : build_prompt r = some (p, md)) :
    (r.brand.tagline = none → "Tagline: N/A" ∈ promptLinesOf r) ∧
    (∀ t, r.brand.tagline = some t → t ≠ "" →
      ("Tagline: " ++ t) ∈ promptLinesOf r) ∧
    (r.brand.description = none → "Description/positioning: N/A" ∈ promptLinesOf r) ∧
    (∀ t, r.brand.description = some t → t ≠ "" →
      ("Description/positioning: " ++ t) ∈ promptLinesOf r) ∧
    (r.brand.target_audience = none → "Target audience: N/A" ∈ promptLinesOf r) ∧
    (∀ t, r.brand.target_audience = some t → t ≠ "" →
      ("Target audience: " ++ t) ∈ promptLinesOf r) ∧
    (r.style.formatting_notes = none → "Formatting notes: N/A" ∈ promptLinesOf r) ∧
    (∀ t, r.style.formatting_notes = some t → t ≠ "" →
      ("Formatting notes: " ++ t) ∈ promptLinesOf r) := by
  refine ⟨?_, ?_, ?_, ?_, ?_, ?_, ?_, ?_⟩
  · intro ht
    have hm := tagline_slot_mem r
    rw [ht, show "Tagline: " ++ orNA none = "Tagline: N/A" from by decide] at hm
    exact hm
  · intro t ht hne
    have hm := tagline_slot_mem r
    rw [ht, show orNA (some t) = t from by
      simp [orNA, beq_eq_false_iff_ne.mpr hne]] at hm
    exact hm
  · intro ht
    have hm := description_slot_mem r
    rw [ht, show "Description/positioning: " ++ orNA none = "Description/positioning: N/A"
      from by decide] at hm
    exact hm
  · intro t ht hne
    have hm := description_slot_mem r
    rw [ht, show orNA (some t) = t from by
      simp [orNA, beq_eq_false_iff_ne.mpr hne]] at hm
    exact hm
  · intro ht
    have hm := audience_slot_mem r
    rw [ht, show "Target audience: " ++ orNA none = "Target audience: N/A" from by decide] at hm
    exact hm
  · intro t ht hne
    have hm := audience_slot_mem r
    rw [ht, show orNA (some t) = t from by
      simp [orNA, beq_eq_false_iff_ne.mpr hne]] at hm
    exact hm
  · intro ht
    have hm := formatting_slot_mem r
    rw [ht, show "Formatting notes: " ++ orNA none = "Formatting notes: N/A" from by decide] at hm
    exact hm
  · intro t ht hne
    have hm := formatting_slot_mem r
    rw [ht, show orNA (some t) = t from by
      simp [orNA, beq_eq_false_iff_ne.mpr hne]] at hm
    exact hm

/-- Claim C5, counterexample to the original wording: in reqEmptyTag the
tagline is present but empty, yet the prompt renders Tagline: N/A rather
than the present value. -/
theorem c5_counterexample :
    reqEmptyTag.brand.tagline = some "" ∧
    "Tagline: N/A" ∈ promptLinesOf reqEmptyTag ∧
    "Tagline: " ∉ promptLinesOf reqEmptyTag := by
  refine ⟨rfl, by decide, by decide⟩

/-- Claim C8: every validated request with orientation ad, platform
instagram, brand name Acme, keywords [seasonal, craft] and avoid [cheap]
yields a prompt containing the five expected fragments, keywords joined
with a comma and a space. -/
theorem c8_scenario (r : PromptGenerateRequest) (hv : ValidRequest r)
    (ho : r.orientation = Orientation.ad) (hpl : r.platform = Platform.instagram)
    (hb : r.brand.brand_name = "Acme")
    (hk : r.brand.voice.keywords = ["seasonal", "craft"])
    (ha : r.brand.voice.avoid = ["cheap"])
    (p : String) (md : List (String × MetaValue))
    (h : build_prompt r = some (p, md)) :
    strContains p "Create ad-focused copy" ∧
    strContains p "Optimize for Instagram" ∧
    strContains p "Brand name: Acme" ∧
    strContains p "Include/Emphasize keywords: seasonal, craft" ∧
    strContains p "Avoid: cheap" := by
  have hx1 : dictGet orientationNotesTable r.orientation.value defaultONote
      ∈ promptLinesOf r := by
    apply mem_promptLines
    · simp [promptEntries]
    · rw [ho]; decide
  have hx2 : dictGet platformNotesTable r.platform.value defaultPNote
      ∈ promptLinesOf r := by
    apply mem_promptLines
    · simp [promptEntries]
    · rw [hpl]; decide
  have hx3 : ("Brand name: " ++ r.brand.brand_name) ∈ promptLinesOf r := by
    apply mem_promptLines
    · simp [promptEntries]
    · rw [hb]; decide
  have hx4 : ("Include/Emphasize keywords: " ++
      (if r.brand.voice.keywords.isEmpty then "N/A"
       else joinStr ", " r.brand.voice.keywords)) ∈ promptLinesOf r := by
    apply mem_promptLines
    · simp [promptEntries]
    · rw [hk]; decide
  have hx5 : ("Avoid: " ++
      (if r.brand.voice.avoid.isEmpty then "N/A"
       else joinStr ", " r.brand.voice.avoid)) ∈ promptLinesOf r := by
    apply mem_promptLines
    · simp [promptEntries]
    · rw [ha]; decide
  refine ⟨?_, ?_, ?_, ?_, ?_⟩
  · exact strContains_of_mem_lines r p md h _ hx1 _ (by rw [ho]; decide)
  · exact strContains_of_mem_lines r p md h _ hx2 _ (by rw [hpl]; decide)
  · exact strContains_of_mem_lines r p md h _ hx3 _ (by rw [hb]; decide)
  · exact strContains_of_mem_lines r p md h _ hx4 _ (by rw [hk]; decide)
  · exact strContains_of_mem_lines r p md h _ hx5 _ (by rw [ha]; decide)

/-- Claim C9: build_prompt is total on validated requests: it always
returns a some (prompt, metadata) pair, because each note lookup falls
back to the entry keyed "other", which both tables contain. -/
theorem c9_total (r : PromptGenerateRequest) (hv : ValidRequest r) :
    (∃ p md, build_prompt r = some (p, md)) ∧
    (∀ s, _orientation_notes s = some (dictGet orientationNotesTable s defaultONote)) ∧
    (∀ s, _platform_notes s = some (dictGet platformNotesTable s defaultPNote)) :=
  ⟨⟨_, _, build_prompt_some r⟩, fun _ => rfl, fun _ => rfl⟩

/-- Claim C1 (amended): the empty-string separator entries are not
preserved: together with every other line that is empty after stripping,
they are dropped by the join rule, so the prompt is the single-newline
join of exactly the stripped-nonempty entries, no blank line survives the
filter, and the first two joined lines (persona sentence, Task header) are
adjacent with no blank line between them. -/
theorem c1_amended (r : PromptGenerateRequest) (hv : ValidRequest r)
    (p : String) (md : List (String × MetaValue))
    (h : build_prompt r = some (p, md)) :
    p = joinStr "\n" (promptLinesOf r) ∧
    "" ∉ promptLinesOf r ∧
    (∀ ln ∈ promptLinesOf r, pyStrip ln ≠ "") ∧
    (∃ t, promptLinesOf r =
      "You are a world-class brand copywriter and prompt engineer." :: "## Task" :: t) := by
  refine ⟨?_, ?_, ?_, ⟨_, rfl⟩⟩
  · rw [build_prompt_some r] at h
    simp only [Option.some.injEq, Prod.mk.injEq] at h
    exact h.1.symm
  · intro hmem
    have := (List.mem_filter.mp hmem).2
    exact absurd this (by decide)
  · intro ln hmem
    have hk := (List.mem_filter.mp hmem).2
    simp only [_keepLine, Bool.and_eq_true, Bool.not_eq_true', beq_eq_false_iff_ne] at hk
    exact hk.2

/-- Claim C1, counterexample to the original wording: for the concrete
validated request reqSmall no empty separator line remains in the joined
output, and the persona line and the Task header are adjacent rather than
separated by a blank line. -/
theorem c1_counterexample :
    "" ∉ promptLinesOf reqSmall ∧
    List.take 2 (promptLinesOf reqSmall) =
      ["You are a world-class brand copywriter and prompt engineer.", "## Task"] := by
  exact ⟨by decide, by decide⟩

/-- Claim C10: an optional string field that is present but empty passes
validation yet renders exactly like an absent one: the slot shows N/A and
the whole build_prompt output is unchanged when the empty value is
replaced by none. -/
theorem c10_empty_equals_absent (r : PromptGenerateRequest) (hv : ValidRequest r) :
    (r.brand.tagline = some "" →
      "Tagline: N/A" ∈ promptLinesOf r ∧
      build_prompt r = build_prompt { r with brand := { r.brand with tagline := none } }) ∧
    (r.brand.description = some "" →
      "Description/positioning: N/A" ∈ promptLinesOf r ∧
      build_prompt r = build_prompt { r with brand := { r.brand with description := none } }) ∧
    (r.brand.target_audience = some "" →
      "Target audience: N/A" ∈ promptLinesOf r ∧
      build_prompt r = build_prompt { r with brand := { r.brand with target_audience := none } }) ∧
    (r.style.formatting_notes = some "" →
      "Formatting notes: N/A" ∈ promptLinesOf r ∧
      build_prompt r = build_prompt { r with style := { r.style with formatting_notes := none } }) := by
  obtain ⟨o, pl, bf, ⟨bn, tg, ds, ta, vc⟩, ⟨sl, sh, se, sf⟩, ac⟩ := r
  refine ⟨?_, ?_, ?_, ?_⟩
  · intro ht
    simp only at ht
    subst ht
    refine ⟨?_, rfl⟩
    have hm := tagline_slot_mem ⟨o, pl, bf, ⟨bn, some "", ds, ta, vc⟩, ⟨sl, sh, se, sf⟩, ac⟩
    rw [show orNA (⟨bn, some "", ds, ta, vc⟩ : BrandSettings).tagline = "N/A" from rfl] at hm
    rw [show "Tagline: " ++ "N/A" = "Tagline: N/A" from by decide] at hm
    exact hm
  · intro ht
    simp only at ht
    subst ht
    refine ⟨?_, rfl⟩
    have hm := description_slot_mem ⟨o, pl, bf, ⟨bn, tg, some "", ta, vc⟩, ⟨sl, sh, se, sf⟩, ac⟩
    rw [show orNA (⟨bn, tg, some "", ta, vc⟩ : BrandSettings).description = "N/A" from rfl] at hm
    rw [show "Description/positioning: " ++ "N/A" = "Description/positioning: N/A" from by decide] at hm
    exact hm
  · intro ht
    simp only at ht
    subst ht
    refine ⟨?_, rfl⟩
    have hm := audience_slot_mem ⟨o, pl, bf, ⟨bn, tg, ds, some "", vc⟩, ⟨sl, sh, se, sf⟩, ac⟩
    rw [show orNA (⟨bn, tg, ds, some "", vc⟩ : BrandSettings).target_audience = "N/A" from rfl] at hm
    rw [show "Target audience: " ++ "N/A" = "Target audience: N/A" from by decide] at hm
    exact hm
  · intro ht
    simp only at ht
    subst ht
    refine ⟨?_, rfl⟩
    have hm := formatting_slot_mem ⟨o, pl, bf, ⟨bn, tg, ds, ta, vc⟩, ⟨sl, sh, se, some ""⟩, ac⟩
    rw [show orNA (⟨sl, sh, se, some ""⟩ : StyleSettings).formatting_notes = "N/A" from rfl] at hm
    rw [show "Formatting notes: " ++ "N/A" = "Formatting notes: N/A" from by decide] at hm
    exact hm


/-- One field-level violation reported by the validator: location path,
nature of the violation, and (when supplied) the offending value. -/
structure FieldError where
  loc : List String
  type : String
  input : Option String
  deriving DecidableEq

/-- Raw (pre-validation) `BrandVoice` payload: every field may be absent. -/
structure RawBrandVoice where
  tone : Option String := none
  keywords : Option (List String) := none
  avoid : Option (List String) := none

/-- Raw `BrandSettings` payload. -/
structure RawBrandSettings where
  brand_name : Option String := none
  tagline : Option String := none
  description : Option String := none
  target_audience : Option String := none
  voice : Option RawBrandVoice := none

/-- Raw `StyleSettings` payload. -/
structure RawStyleSettings where
  length : Option String := none
  include_hashtags : Option Bool := none
  emoji_level : Option Int := none
  formatting_notes : Option String := none

/-- Raw `PromptGenerateRequest` payload. -/
structure RawRequest where
  orientation : Option String := none
  platform : Option String := none
  brief : Option String := none
  brand : Option RawBrandSettings := none
  style : Option RawStyleSettings := none
  additional_context : Option String := none

/-- Pydantic validates each field independently and reports all violations
together: combining two field results appends their error lists. -/
def mergeV {α β : Type} :
    Except (List FieldError) α → Except (List FieldError) β →
    Except (List FieldError) (α × β)
  | .ok a, .ok b => .ok (a, b)
  | .error e, .ok _ => .error e
  | .ok _, .error e => .error e
  | .error e1, .error e2 => .error (e1 ++ e2)

/-- Map over a successful validation result. -/
def vmap {α β : Type} (f : α → β) :
    Except (List FieldError) α → Except (List FieldError) β
  | .ok a => .ok (f a)
  | .error e => .error e

/-- The errors carried by a validation result (empty on success). -/
def errsOf {α : Type} : Except (List FieldError) α → List FieldError
  | .ok _ => []
  | .error e => e

/-- Parse an `Orientation` token (case-sensitive, exact). -/
def parseOrientation (s : String) : Option Orientation :=
  if s == "post" then some .post
  else if s == "ad" then some .ad
  else if s == "email" then some .email
  else if s == "landing_page" then some .landing_page
  else if s == "other" then some .other
  else none

/-- Parse a `Platform` token. -/
def parsePlatform (s : String) : Option Platform :=
  if s == "instagram" then some .instagram
  else if s == "tiktok" then some .tiktok
  else if s == "facebook" then some .facebook
  else if s == "linkedin" then some .linkedin
  else if s == "x" then some .x
  else if s == "youtube" then some .youtube
  else if s == "blog" then some .blog
  else if s == "website" then some .website
  else if s == "other" then some .other
  else none

/-- Parse a `Tone` token. -/
def parseTone (s : String) : Option Tone :=
  if s == "professional" then some .professional
  else if s == "friendly" then some .friendly
  else if s == "playful" then some .playful
  else if s == "bold" then some .bold
  else if s == "luxurious" then some .luxurious
  else if s == "minimalist" then some .minimalist
  else if s == "other" then some .other
  else none

/-- Parse a `LengthPreference` token. -/
def parseLength (s : String) : Option LengthPreference :=
  if s == "short" then some .short
  else if s == "medium" then some .medium
  else if s == "long" then some .long
  else none

/-- A required enum field: absent is `missing`, an unknown token is `enum`. -/
def vRequiredEnum {α : Type} (loc : List String) (parse : String → Option α) :
    Option String → Except (List FieldError) α
  | none => .error [⟨loc, "missing", none⟩]
  | some s =>
    match parse s with
    | some v => .ok v
    | none => .error [⟨loc, "enum", some s⟩]

/-- A required string field with inclusive length bounds. -/
def vRequiredStr (loc : List String) (minL maxL : Nat) :
    Option String → Except (List FieldError) String
  | none => .error [⟨loc, "missing", none⟩]
  | some s =>
    if s.length < minL then .error [⟨loc, "string_too_short", some s⟩]
    else if maxL < s.length then .error [⟨loc, "string_too_long", some s⟩]
    else .ok s

/-- An optional string field with a maximum length; absent defaults to null. -/
def vOptStr (loc : List String) (maxL : Nat) :
    Option String → Except (List FieldError) (Option String)
  | none => .ok none
  | some s =>
    if maxL < s.length then .error [⟨loc, "string_too_long", some s⟩]
    else .ok (some s)

/-- A list field with a maximum item count; absent defaults to []. -/
def vStrList (loc : List String) (maxItems : Nat) :
    Option (List String) → Except (List FieldError) (List String)
  | none => .ok []
  | some l =>
    if maxItems < l.length then .error [⟨loc, "too_long", some (toString l.length)⟩]
    else .ok l

/-- `tone` field: defaults to professional, otherwise must parse. -/
def validateTone : Option String → Except (List FieldError) Tone
  | none => .ok .professional
  | some s =>
    match parseTone s with
    | some t => .ok t
    | none => .error [⟨["brand", "voice", "tone"], "enum", some s⟩]

/-- `length` field: defaults to medium, otherwise must parse. -/
def validateLength : Option String → Except (List FieldError) LengthPreference
  | none => .ok .medium
  | some s =>
    match parseLength s with
    | some l => .ok l
    | none => .error [⟨["style", "length"], "enum", some s⟩]

/-- `include_hashtags` field: boolean defaulting to true. -/
def validateHashtags : Option Bool → Except (List FieldError) Bool
  | none => .ok true
  | some b => .ok b

/-- `emoji_level` field of `StyleSettings`: an integer with `ge=0, le=5`,
defaulting to 0 when omitted (models.py lines 117-122). -/
def validate_emoji_level : Option Int → Except (List FieldError) Int
  | none => .ok 0
  | some n =>
    if n < 0 then .error [⟨["style", "emoji_level"], "greater_than_equal", some (toString n)⟩]
    else if 5 < n then .error [⟨["style", "emoji_level"], "less_than_equal", some (toString n)⟩]
    else .ok n

/-- Validate a `BrandVoice` payload (defaults apply when absent). -/
def validateBrandVoice : Option RawBrandVoice → Except (List FieldError) BrandVoice
  | none => .ok ⟨.professional, [], []⟩
  | some raw =>
    vmap (fun p => ⟨p.1.1, p.1.2, p.2⟩)
      (mergeV (mergeV (validateTone raw.tone)
        (vStrList ["brand", "voice", "keywords"] 30 raw.keywords))
        (vStrList ["brand", "voice", "avoid"] 30 raw.avoid))

/-- Validate a `BrandSettings` payload; the object itself is required. -/
def validateBrand : Option RawBrandSettings → Except (List FieldError) BrandSettings
  | none => .error [⟨["brand"], "missing", none⟩]
  | some raw =>
    vmap (fun p => ⟨p.1.1.1.1, p.1.1.1.2, p.1.1.2, p.1.2, p.2⟩)
      (mergeV (mergeV (mergeV (mergeV
        (vRequiredStr ["brand", "brand_name"] 1 120 raw.brand_name)
        (vOptStr ["brand", "tagline"] 200 raw.tagline))
        (vOptStr ["brand", "description"] 800 raw.description))
        (vOptStr ["brand", "target_audience"] 400 raw.target_audience))
        (validateBrandVoice raw.voice))

/-- Validate a `StyleSettings` payload (whole object defaulted when absent). -/
def validateStyle : Option RawStyleSettings → Except (List FieldError) StyleSettings
  | none => .ok ⟨.medium, true, 0, none⟩
  | some raw =>
    vmap (fun p => ⟨p.1.1.1, p.1.1.2, p.1.2, p.2⟩)
      (mergeV (mergeV (mergeV
        (validateLength raw.length)
        (validateHashtags raw.include_hashtags))
        (validate_emoji_level raw.emoji_level))
        (vOptStr ["style", "formatting_notes"] 400 raw.formatting_notes))

/-- Validate a full `PromptGenerateRequest` payload, collecting the
violations of all fields (declaration order) into one error list. -/
def validateRequest (raw : RawRequest) : Except (List FieldError) PromptGenerateRequest :=
  vmap (fun p => ⟨p.1.1.1.1.1, p.1.1.1.1.2, p.1.1.1.2, p.1.1.2, p.1.2, p.2⟩)
    (mergeV (mergeV (mergeV (mergeV (mergeV
      (vRequiredEnum ["orientation"] parseOrientation raw.orientation)
      (vRequiredEnum ["platform"] parsePlatform raw.platform))
      (vRequiredStr ["brief"] 1 2000 raw.brief))
      (validateBrand raw.brand))
      (validateStyle raw.style))
      (vOptStr ["additional_context"] 2000 raw.additional_context))

theorem errsOf_mergeV {α β : Type} (a : Except (List FieldError) α)
    (b : Except (List FieldError) β) :
    errsOf (mergeV a b) = errsOf a ++ errsOf b := by
  cases a <;> cases b <;> simp [mergeV, errsOf]

theorem errsOf_vmap {α β : Type} (f : α → β) (a : Except (List FieldError) α) :
    errsOf (vmap f a) = errsOf a := by
  cases a <;> rfl

theorem eq_error_of_errsOf {α : Type} (a : Except (List FieldError) α)
    (h : errsOf a ≠ []) : a = .error (errsOf a) := by
  cases a with
  | ok v => exact absurd rfl h
  | error e => rfl

/-- The payload of the C7 scenario: orientation "post", platform
"linkedin", an empty brand object, everything else absent. -/
def payloadC7 : RawRequest :=
  ⟨some "post", some "linkedin", none, some ⟨none, none, none, none, none⟩, none, none⟩

/-- Claim C7: for any payload missing both brief and brand.brand_name the
validator fails with one error list containing an entry (location path,
violation kind, offending value) for each of the two offending fields, not
only the first. -/
theorem c7_collects_all_errors (raw : RawRequest) (b : RawBrandSettings)
    (hbf : raw.brief = none) (hbd : raw.brand = some b)
    (hbn : b.brand_name = none) :
    ∃ errs, validateRequest raw = .error errs ∧ errs ≠ [] ∧
      (⟨["brief"], "missing", none⟩ : FieldError) ∈ errs ∧
      (⟨["brand", "brand_name"], "missing", none⟩ : FieldError) ∈ errs := by
  have hE : errsOf (validateRequest raw) =
      errsOf (vRequiredEnum ["orientation"] parseOrientation raw.orientation) ++
      errsOf (vRequiredEnum ["platform"] parsePlatform raw.platform) ++
      errsOf (vRequiredStr ["brief"] 1 2000 raw.brief) ++
      errsOf (validateBrand raw.brand) ++
      errsOf (validateStyle raw.style) ++
      errsOf (vOptStr ["additional_context"] 2000 raw.additional_context) := by
    simp [validateRequest, errsOf_vmap, errsOf_mergeV]
  have hbrief : errsOf (vRequiredStr ["brief"] 1 2000 raw.brief) =
      [⟨["brief"], "missing", none⟩] := by
    rw [hbf]; rfl
  have hbrand : (⟨["brand", "brand_name"], "missing", none⟩ : FieldError) ∈
      errsOf (validateBrand raw.brand) := by
    rw [hbd]
    show _ ∈ errsOf (validateBrand (some b))
    unfold validateBrand
    rw [errsOf_vmap]
    rw [errsOf_mergeV, errsOf_mergeV, errsOf_mergeV, errsOf_mergeV]
    rw [hbn]
    simp [vRequiredStr, errsOf]
  have hne : errsOf (validateRequest raw) ≠ [] := by
    rw [hE]
    intro h0
    rw [hbrief] at h0
    simp at h0
  refine ⟨errsOf (validateRequest raw), eq_error_of_errsOf _ hne, hne, ?_, ?_⟩
  · rw [hE, hbrief]
    simp
  · rw [hE]
    simp only [List.mem_append]
    exact Or.inl (Or.inl (Or.inr hbrand))

/-- Witness for C7 at the spec scenario payload with orientation post,
platform linkedin and an empty brand object. -/
theorem c7_witness :
    ∃ errs, validateRequest payloadC7 = .error errs ∧ errs ≠ [] ∧
      (⟨["brief"], "missing", none⟩ : FieldError) ∈ errs ∧
      (⟨["brand", "brand_name"], "missing", none⟩ : FieldError) ∈ errs :=
  c7_collects_all_errors payloadC7 ⟨none, none, none, none, none⟩ rfl rfl rfl

/-- Claim C6: validation of the emoji_level field succeeds exactly for an
omitted value (defaulting to 0) or an integer in [0,5], which is returned
unchanged; any integer outside the range fails. -/
theorem c6_emoji_validation (v : Option Int) :
    ((∃ n, validate_emoji_level v = .ok n) ↔
      (v = none ∨ ∃ n, v = some n ∧ 0 ≤ n ∧ n ≤ 5)) ∧
    validate_emoji_level none = .ok 0 ∧
    (∀ n, v = some n → 0 ≤ n → n ≤ 5 → validate_emoji_level v = .ok n) := by
  refine ⟨⟨?_, ?_⟩, rfl, ?_⟩
  · intro ⟨n, hn⟩
    cases v with
    | none => exact Or.inl rfl
    | some m =>
      refine Or.inr ⟨m, rfl, ?_, ?_⟩ <;>
      · by_contra hlt
        simp only [validate_emoji_level] at hn
        first
        | (rw [if_pos (by omega)] at hn; cases hn)
        | (rw [if_neg (by omega), if_pos (by omega)] at hn; cases hn)
  · intro hv
    rcases hv with rfl | ⟨n, rfl, h0, h5⟩
    · exact ⟨0, rfl⟩
    · refine ⟨n, ?_⟩
      simp only [validate_emoji_level]
      rw [if_neg (by omega), if_neg (by omega)]
  · intro n hn h0 h5
    subst hn
    simp only [validate_emoji_level]
    rw [if_neg (by omega), if_neg (by omega)]

/-- Witness for C6: 3 is accepted unchanged, 6 and -1 are rejected. -/
theorem c6_witness :
    validate_emoji_level (some 3) = .ok 3 ∧
    ¬ (∃ n, validate_emoji_level (some 6) = .ok n) ∧
    ¬ (∃ n, validate_emoji_level (some (-1)) = .ok n) := by
  refine ⟨(c6_emoji_validation (some 3)).2.2 3 rfl (by decide) (by decide), ?_, ?_⟩
  · intro h
    rcases (c6_emoji_validation (some 6)).1.mp h with h0 | ⟨n, hn, h1, h2⟩
    · cases h0
    · cases hn; omega
  · intro h
    rcases (c6_emoji_validation (some (-1))).1.mp h with h0 | ⟨n, hn, h1, h2⟩
    · cases h0
    · cases hn; omega


/-- Witness for C1 at the concrete request reqSmall. -/
theorem c1_witness :
    "" ∉ promptLinesOf reqSmall ∧
    (∃ t, promptLinesOf reqSmall =
      "You are a world-class brand copywriter and prompt engineer." :: "## Task" :: t) := by
  have h := c1_amended reqSmall (by decide) _ _ (build_prompt_some reqSmall)
  exact ⟨h.2.1, h.2.2.2⟩

/-- Witness for C2 at the concrete request reqA. -/
theorem c2_witness :
    ∃ p md, build_prompt reqA = some (p, md) ∧
      md = [("orientation", MetaValue.str "ad"),
            ("platform", MetaValue.str "instagram"),
            ("brand_name", MetaValue.str "Acme"),
            ("tone", MetaValue.str "professional"),
            ("length", MetaValue.str "medium"),
            ("include_hashtags", MetaValue.bool true),
            ("emoji_level", MetaValue.int 0)] :=
  ⟨_, _, build_prompt_some reqA,
    c2_metadata reqA (by decide) _ _ (build_prompt_some reqA)⟩

/-- Witness for C3 at emoji levels 0 (reqA) and 3 (reqE3). -/
theorem c3_witness :
    "Do not use emojis." ∈ promptLinesOf reqA ∧
    "Use emojis sparingly at level 3/5." ∈ promptLinesOf reqE3 := by
  constructor
  · exact ((c3_emoji reqA (by decide) _ _ (build_prompt_some reqA)).1 rfl).1
  · have h := ((c3_emoji reqE3 (by decide) _ _ (build_prompt_some reqE3)).2 (by decide)).1
    rw [show ("Use emojis sparingly at level " ++ toString reqE3.style.emoji_level ++ "/5.")
      = "Use emojis sparingly at level 3/5." from by decide] at h
    exact h

/-- Witness for C4 at reqA (hashtags on) and reqNoTags (hashtags off). -/
theorem c4_witness :
    "Include relevant hashtags at the end." ∈ promptLinesOf reqA ∧
    "Do not include hashtags." ∈ promptLinesOf reqNoTags :=
  ⟨((c4_hashtags reqA (by decide) _ _ (build_prompt_some reqA)).1 rfl).1,
   ((c4_hashtags reqNoTags (by decide) _ _ (build_prompt_some reqNoTags)).2 rfl).1⟩

/-- Witness for C5 at reqSmall (absent fields) and reqA (present ones). -/
theorem c5_witness :
    "Tagline: N/A" ∈ promptLinesOf reqSmall ∧
    ("Tagline: " ++ "Fuel your day, one cup at a time.") ∈ promptLinesOf reqA :=
  ⟨(c5_optional_slots reqSmall (by decide) _ _ (build_prompt_some reqSmall)).1 rfl,
   (c5_optional_slots reqA (by decide) _ _ (build_prompt_some reqA)).2.1
     "Fuel your day, one cup at a time." rfl (by decide)⟩

/-- Witness for C8 at the concrete request reqA. -/
theorem c8_witness :
    ∃ p md, build_prompt reqA = some (p, md) ∧
      strContains p "Create ad-focused copy" ∧
      strContains p "Optimize for Instagram" ∧
      strContains p "Brand name: Acme" ∧
      strContains p "Include/Emphasize keywords: seasonal, craft" ∧
      strContains p "Avoid: cheap" :=
  ⟨_, _, build_prompt_some reqA,
   c8_scenario reqA (by decide) rfl rfl rfl rfl rfl _ _ (build_prompt_some reqA)⟩

/-- Witness for C9 at the concrete request reqA. -/
theorem c9_witness : ∃ p md, build_prompt reqA = some (p, md) :=
  (c9_total reqA (by decide)).1

/-- Witness for C10 at reqEmptyTag, whose tagline is the empty string. -/
theorem c10_witness :
    "Tagline: N/A" ∈ promptLinesOf reqEmptyTag ∧
    build_prompt reqEmptyTag =
      build_prompt { reqEmptyTag with brand := { reqEmptyTag.brand with tagline := none } } :=
  (c10_empty_equals_absent reqEmptyTag (by decide)).1 rfl


end BrandPrompt
